import Mathlib

/-!
Shallow embedding of `src/anerd.c` (anerd: Asynchronous Network Exchange
Randomness Daemon).

The two roles, `anerd_server` (the Responder) and `anerd_client` (the
Donor), are modelled as pure functions over explicit environments that
fix the outcomes of the system calls (`recvfrom`, `gettimeofday`,
`fread`, `socket`, `setsockopt`, `fopen`, `calloc`).  Each role emits a
trace of observable events mirroring the socket, pool and logging calls
of the C code, in program order.  Machine `int` arithmetic is modelled
on `Int` with explicit wrapping at 2^32; the IEEE-754 `double` that
holds the salt is serialised by an explicit binary64 encoder.
-/

/-- Observable events of the two anerd roles, one constructor per
relevant libc/socket call in `anerd.c`.  `appendReq`/`readReq` record
the `size_t` count the server passes to the pool `fwrite`/`fread`
(after C's `int`-to-`size_t` conversion), so that an out-of-range
request — undefined behaviour against the `size`-byte buffer — is
visible in the trace and can be judged by `ioCountInBounds`. -/
inductive Event where
  | recvEv : Int → Event
  | store : Int → Event
  | logRecv : Int → Event
  | appendReq : Nat → Event
  | append : List Nat → Event
  | flush : Event
  | readReq : Nat → Event
  | readPool : Nat → Event
  | send : Nat → Event
  | logSend : Int → Event
  | logDonate : Nat → Event
  | broadcast : List Nat → Event
  | perror : String → Event
  | sleepEv : Int → Event
  deriving Repr, DecidableEq

/-- How a role run ends: `exited c` models `exit(c)`, `finished` models
falling off a loop whose guard failed (reaching `return 0`), `fuelOut`
means the modelled loop was still running when the observation window
(fuel) closed. -/
inductive Outcome where
  | exited : Nat → Outcome
  | finished : Outcome
  | fuelOut : Outcome
  deriving Repr, DecidableEq

/-- Wrap an unbounded integer to a 32-bit two's-complement `int`. -/
def toInt32 (n : Int) : Int := (n + 2 ^ 31) % 2 ^ 32 - 2 ^ 31

/-- The bit pattern of the IEEE-754 binary64 `double` holding the exact
integer value `v` (exact for the int32-range values produced by the
salt computation). -/
def double_bits (v : Int) : Nat :=
  if v = 0 then 0
  else
    let sign : Nat := if v < 0 then 1 else 0
    let a : Nat := v.natAbs
    let k : Nat := Nat.log2 a
    sign * 2 ^ 63 + (1023 + k) * 2 ^ 52 + (a * 2 ^ 52 / 2 ^ k - 2 ^ 52)

/-- The 8 bytes of `double_bits v`, little-endian: what
`fwrite(&salt, sizeof(double), 1, fp)` appends to the pool. -/
def doubleLE (v : Int) : List Nat :=
  (List.range 8).map (fun i => double_bits v / 2 ^ (8 * i) % 256)

/-- Writing `chunk` at the start of buffer `buf` (the effect of
`recvfrom`/`fread` depositing bytes into an existing `calloc` buffer,
leaving the tail of the buffer unchanged). -/
def overlay (buf chunk : List Nat) : List Nat :=
  (chunk ++ buf.drop chunk.length).take buf.length

/-- The store `data[idx] = v` with a (possibly negative) C `int` index.
The out-of-bounds cases, which are undefined behaviour in C, leave the
modelled buffer unchanged; `storeInBounds` below is the safety predicate
the claims are judged against. -/
def setAt (buf : List Nat) (idx : Int) (v : Nat) : List Nat :=
  if 0 ≤ idx then buf.set idx.toNat v else buf

/-- Whether the index of a store into a `size`-byte buffer is within the
allocation. -/
def storeInBounds (size : Nat) (idx : Int) : Prop :=
  0 ≤ idx ∧ idx < (size : Int)

instance (size : Nat) (idx : Int) : Decidable (storeInBounds size idx) := by
  unfold storeInBounds; infer_instance

/-- The C conversion of an `int` to `size_t` (the count argument of
`fwrite`/`fread`): reduction modulo 2^64, so -1 becomes 2^64 - 1. -/
def toSizeT (n : Int) : Nat := (n % (2 : Int) ^ 64).toNat

/-- Whether a requested `fwrite`/`fread` transfer of `count` bytes
against a `size`-byte buffer stays within the allocation. -/
def ioCountInBounds (size count : Nat) : Prop := count ≤ size

instance (size count : Nat) : Decidable (ioCountInBounds size count) := by
  unfold ioCountInBounds; infer_instance

/-- The value of `strlen(data)` on the buffer: bytes up to the first NUL. -/
def strlenBuf (buf : List Nat) : Nat :=
  (buf.takeWhile (fun b => b ≠ 0)).length

/-- The `int` timestamp `1000000 * tv.tv_usec + tv.tv_usec` the server
computes from one `gettimeofday` reading (`u` is `tv.tv_usec`). -/
def usecReading (u : Int) : Int := toInt32 (1000000 * u + u)

/-- The salt of one server iteration: `salt = last_usec * this_usec`
(C `int` product, then stored exactly in a `double`). -/
def saltOf (last this : Int) : Int := toInt32 (last * this)

/-- Per-iteration environment of the server loop: the result of
`recvfrom` (`none` models a return of -1, `some msg` a datagram with
payload `msg`), the `tv_usec` field of this iteration's `gettimeofday`,
and the bytes the pool device yields to the reply `fread`. -/
structure ServerEnv where
  recv : Option (List Nat)
  usec : Int
  devBytes : List Nat
  deriving Repr, DecidableEq

/-- Server state carried between iterations: the rolling timestamp
`last_usec`, the byte stream appended to the pool device so far, and the
contents of the `data` buffer. -/
structure ServerState where
  lastUsec : Int
  pool : List Nat
  buf : List Nat
  deriving Repr, DecidableEq

/-- The value `recvfrom` returns into `bytes_read`: -1 on error,
otherwise the datagram length truncated to the buffer size. -/
def bytesRead (size : Nat) (env : ServerEnv) : Int :=
  match env.recv with
  | none => -1
  | some msg => ((msg.take size).length : Int)

/-- One iteration of the `while (1)` loop of `anerd_server`
(src/anerd.c lines 86-107), in program order: `recvfrom`,
`data[bytes_read] = 0`, `gettimeofday`/salt update, the "Received"
syslog, the two `fwrite`s of payload and salt, `fflush`, the reply
`fread`, `sendto` of `strlen(data)` bytes, the "Transmit" syslog.

The count the code passes to the payload `fwrite` and to the reply
`fread` is `bytes_read` converted to `size_t`; the trace records that
request via `appendReq`/`readReq` (2^64 - 1 when `recvfrom` returned
-1).  A request exceeding the buffer is undefined behaviour in C and is
judged by `ioCountInBounds`; for the modelled data flow such a transfer
is clipped to `bytes_read.toNat` (zero on the error path), a convention
the claims must not rely on for the out-of-range cases. -/
def anerd_server_iter (size : Nat) (st : ServerState) (env : ServerEnv) :
    ServerState × List Event :=
  let n : Int := bytesRead size env
  let bufR : List Nat :=
    match env.recv with
    | none => st.buf
    | some msg => overlay st.buf (msg.take size)
  let bufS := setAt bufR n 0
  let thisU := usecReading env.usec
  let salt := saltOf st.lastUsec thisU
  let appended := bufS.take n.toNat
  let reply := env.devBytes.take n.toNat
  let bufF := overlay bufS reply
  (⟨thisU, st.pool ++ appended ++ doubleLE salt, bufF⟩,
   [Event.recvEv n, Event.store n, Event.logRecv n,
    Event.appendReq (toSizeT n), Event.append appended,
    Event.append (doubleLE salt), Event.flush,
    Event.readReq (toSizeT n), Event.readPool reply.length,
    Event.send (strlenBuf bufF), Event.logSend n])

/-- The server loop run over a finite sequence of per-datagram
environments, threading the state and concatenating the traces. -/
def anerd_server_run (size : Nat) : List ServerEnv → ServerState → List Event
  | [], _ => []
  | e :: es, st =>
    (anerd_server_iter size st e).2 ++
      anerd_server_run size es (anerd_server_iter size st e).1

/-- Environment of one client run: which of the four setup calls
succeed, and the list of byte chunks the successive pool `fread`s
return (`[]` models a read of 0 bytes). -/
structure ClientEnv where
  callocOk : Bool
  socketOk : Bool
  sockoptOk : Bool
  fopenOk : Bool
  chunks : List (List Nat)
  deriving Repr, DecidableEq

/-- The `while (interval > 0)` loop of `anerd_client` (src/anerd.c
lines 151-161): per cycle, `fread` up to `size` bytes; if it returned
more than 0, syslog the donation and `sendto` exactly `size` bytes of
the buffer; otherwise `perror("fread")`; then `sleep(interval)`. -/
def anerd_client_loop (size : Nat) (interval : Int) :
    List (List Nat) → List Nat → Nat → List Event × Outcome
  | chunks, buf, fuel =>
    if 0 < interval then
      match fuel with
      | 0 => ([], Outcome.fuelOut)
      | Nat.succ f =>
        let chunk := (chunks.headD []).take size
        let buf2 := overlay buf chunk
        let cyc :=
          if 0 < chunk.length
            then [Event.logDonate size, Event.broadcast buf2]
            else [Event.perror "fread"]
        let r := anerd_client_loop size interval chunks.tail buf2 f
        (cyc ++ [Event.sleepEv interval] ++ r.1, r.2)
    else ([], Outcome.finished)

/-- `anerd_client` (src/anerd.c lines 121-167): `calloc` failure is
`perror` + `exit(1)`; `socket` and `setsockopt` failures are `perror`
only, with execution continuing; `fopen` failure is `perror` +
`exit(1)`; then the broadcast loop. -/
def anerd_client_run (size : Nat) (interval : Int) (env : ClientEnv)
    (fuel : Nat) : List Event × Outcome :=
  if env.callocOk = false then ([Event.perror "calloc"], Outcome.exited 1)
  else
    let e1 := if env.socketOk = false then [Event.perror "socket"] else []
    let e2 := if env.sockoptOk = false then [Event.perror "setsockopt"] else []
    if env.fopenOk = false then
      (e1 ++ e2 ++ [Event.perror "fopen"], Outcome.exited 1)
    else
      let r := anerd_client_loop size interval env.chunks
        (List.replicate size 0) fuel
      (e1 ++ e2 ++ r.1, r.2)

/-- Recognises the `fflush(fp)` event. -/
def isFlushEv : Event → Bool
  | Event.flush => true
  | _ => false

/-- Recognises the reply `fread` event. -/
def isReadEv : Event → Bool
  | Event.readPool _ => true
  | _ => false

/-- Recognises the `recvfrom` event. -/
def isRecvEv : Event → Bool
  | Event.recvEv _ => true
  | _ => false

/-- Auxiliary: a store at index `i` does not change the first `i`
elements of a list. -/
theorem take_set_self {α : Type} (l : List α) (i : Nat) (v : α) :
    (l.set i v).take i = l.take i := by
  induction l generalizing i with
  | nil => simp
  | cons a l ih =>
    cases i with
    | zero => simp
    | succ j => simp [List.set, List.take, ih]

/-- Auxiliary: depositing a chunk into a buffer preserves its length. -/
theorem overlay_length (buf chunk : List Nat) :
    (overlay buf chunk).length = buf.length := by
  simp [overlay]; omega

/-- Auxiliary: depositing zero bytes leaves the buffer unchanged. -/
theorem overlay_nil (buf : List Nat) : overlay buf [] = buf := by
  simp [overlay]

/-- Auxiliary: the first `chunk.length` bytes of the buffer after a
deposit are the chunk itself. -/
theorem overlay_take (buf msg : List Nat) (h : msg.length ≤ buf.length) :
    (overlay buf msg).take msg.length = msg := by
  simp [overlay, List.take_take, Nat.min_eq_left h]

/-- Claim C1: refuted by the code as written; this theorem evaluates the
embedded server iteration at the failing input.  On a 2-byte datagram
(`bytes_read = 2`) whose reply `fread` yields the bytes `[0, 90]`, the
`sendto` call transmits `strlen(data) = 0` bytes, not the 2 bytes the
claim (and the code's own header comment and "Transmit" syslog line)
require: the reply is cut at the first NUL byte of the pool output. -/
theorem C1_reply_length_bug :
    bytesRead 64 ⟨some [65, 66], 5, [0, 90]⟩ = 2 ∧
    Event.send 0 ∈ (anerd_server_iter 64 ⟨0, [], List.replicate 64 0⟩
      ⟨some [65, 66], 5, [0, 90]⟩).2 ∧
    (0 : Nat) ≠ 2 := by
  decide

/-- Claim C2 counterexample: a run in which `socket` creation fails but
all other setup succeeds does not exit — it reports via
`perror("socket")` and still enters the broadcast loop (a broadcast
event occurs and the outcome is not an exit), refuting the claim that a
socket-creation failure causes exit with non-zero status. -/
theorem C2_socket_failure_not_fatal :
    (anerd_client_run 64 1 ⟨true, false, true, true, [[5]]⟩ 1).2
      = Outcome.fuelOut ∧
    Event.perror "socket"
      ∈ (anerd_client_run 64 1 ⟨true, false, true, true, [[5]]⟩ 1).1 ∧
    Event.broadcast (5 :: List.replicate 63 0)
      ∈ (anerd_client_run 64 1 ⟨true, false, true, true, [[5]]⟩ 1).1 := by
  decide

/-- Claim C2 (amended): only the `calloc` buffer-allocation failure and
the `fopen` pool-device-open failure are fatal for the Donor — the
process exits with status 1 and never broadcasts; `socket` and
`setsockopt` (broadcast-mode) failures are reported but not fatal. -/
theorem C2_alloc_open_failures_fatal (size : Nat) (interval : Int)
    (env : ClientEnv) (fuel : Nat)
    (h : env.callocOk = false ∨ env.fopenOk = false) :
    (anerd_client_run size interval env fuel).2 = Outcome.exited 1 ∧
    ∀ bs, Event.broadcast bs ∉ (anerd_client_run size interval env fuel).1 := by
  rcases h with h | h
  · simp [anerd_client_run, h]
  · cases hc : env.callocOk
    · simp [anerd_client_run, hc]
    · cases hs : env.socketOk <;> cases hso : env.sockoptOk <;>
        simp [anerd_client_run, hc, h, hs, hso]

/-- Claim C2 witness: concrete instance of the amended theorem at a run
whose `fopen` fails. -/
theorem C2_alloc_open_failures_fatal_witness :
    ((⟨true, true, true, false, [[1]]⟩ : ClientEnv).callocOk = false ∨
      (⟨true, true, true, false, [[1]]⟩ : ClientEnv).fopenOk = false) ∧
    ((anerd_client_run 64 1 ⟨true, true, true, false, [[1]]⟩ 3).2
        = Outcome.exited 1 ∧
      ∀ bs, Event.broadcast bs
        ∉ (anerd_client_run 64 1 ⟨true, true, true, false, [[1]]⟩ 3).1) :=
  ⟨Or.inr rfl,
    C2_alloc_open_failures_fatal 64 1 ⟨true, true, true, false, [[1]]⟩ 3
      (Or.inr rfl)⟩

/-- Claim C3: refuted by the code as written; this theorem evaluates the
embedded server iteration at the failing inputs.  With `size = 2`, a
datagram that fills the buffer gives `bytes_read = 2` and the store
`data[bytes_read] = 0` lands at index 2 of a 2-byte allocation — one
past the end — and a `recvfrom` error gives `bytes_read = -1` and a
store at index -1; neither index is within bounds. -/
theorem C3_null_store_out_of_bounds :
    (Event.store 2 ∈ (anerd_server_iter 2 ⟨0, [], [0, 0]⟩
        ⟨some [7, 8], 1, [0, 0]⟩).2 ∧
      ¬ storeInBounds 2 2) ∧
    (Event.store (-1) ∈ (anerd_server_iter 2 ⟨0, [], [0, 0]⟩
        ⟨none, 1, [0, 0]⟩).2 ∧
      ¬ storeInBounds 2 (-1)) := by
  decide

/-- Claim C4 counterexample: the salt function `last_usec * this_usec`
is not injective on distinct timestamp pairs — the pairs (2, 6) and
(3, 4) are different but produce the same salt. -/
theorem C4_product_not_injective :
    saltOf 2 6 = saltOf 3 4 ∧ ((2 : Int), (6 : Int)) ≠ ((3 : Int), (4 : Int)) := by
  decide

/-- Claim C4 (amended): the salt of each Responder iteration is the
deterministic function `saltOf` of the stored timestamp and the current
reading (their C `int` product stored in a `double`), and the stored
timestamp is updated to the current reading for the next iteration;
injectivity on distinct pairs does not hold. -/
theorem C4_salt_deterministic_update (size : Nat) (st : ServerState)
    (env : ServerEnv) :
    (anerd_server_iter size st env).1.lastUsec = usecReading env.usec ∧
    Event.append (doubleLE (saltOf st.lastUsec (usecReading env.usec)))
      ∈ (anerd_server_iter size st env).2 :=
  ⟨rfl, by simp [anerd_server_iter]⟩

/-- Claim C5: in every Responder iteration, whatever the state and the
environment, the `fflush` of the pool append occurs strictly before the
`fread` that produces the reply: the first flush event in the
iteration's trace precedes the first pool-read event. -/
theorem C5_flush_precedes_reply_read (size : Nat) (st : ServerState)
    (env : ServerEnv) :
    List.findIdx isFlushEv (anerd_server_iter size st env).2 <
    List.findIdx isReadEv (anerd_server_iter size st env).2 := by
  show (6 : Nat) < 8
  decide

/-- Claim C6: refuted by the code as written; this theorem evaluates
the embedded server iteration at the failing input.  When `recvfrom`
returns -1 (`size = 2` here), the loop body does not take a
reported-and-continue path: after the out-of-bounds store at
`data[-1]`, it passes `bytes_read` converted to `size_t` — 2^64 - 1 —
as the count of both the payload `fwrite` and the reply `fread`
against the 2-byte buffer, an out-of-bounds access of ~2^64 bytes
(undefined behaviour that aborts the process in practice), so the loop
does not harmlessly continue to the next datagram. -/
theorem C6_recv_error_oob_io :
    Event.appendReq (2 ^ 64 - 1)
      ∈ (anerd_server_iter 2 ⟨0, [], [0, 0]⟩ ⟨none, 5, [1, 2]⟩).2 ∧
    Event.readReq (2 ^ 64 - 1)
      ∈ (anerd_server_iter 2 ⟨0, [], [0, 0]⟩ ⟨none, 5, [1, 2]⟩).2 ∧
    ¬ ioCountInBounds 2 (2 ^ 64 - 1) ∧
    Event.store (-1)
      ∈ (anerd_server_iter 2 ⟨0, [], [0, 0]⟩ ⟨none, 5, [1, 2]⟩).2 ∧
    ¬ storeInBounds 2 (-1) := by
  decide

/-- Claim C7: in an iteration that received the `n`-byte datagram `msg`
(with `n ≤ size` and the buffer at its allocated size), the bytes
appended to the pool are exactly `msg` followed by the 8-byte encoding
of the salt, and the 8-byte salt encoding indeed has length 8. -/
theorem C7_append_payload_then_salt (size : Nat) (st : ServerState)
    (env : ServerEnv) (msg : List Nat) (h : env.recv = some msg)
    (hm : msg.length ≤ size) (hb : st.buf.length = size) :
    (anerd_server_iter size st env).1.pool
      = st.pool ++ msg ++ doubleLE (saltOf st.lastUsec (usecReading env.usec)) ∧
    (doubleLE (saltOf st.lastUsec (usecReading env.usec))).length = 8 := by
  constructor
  · have hms : msg.take size = msg := List.take_of_length_le hm
    simp only [anerd_server_iter, bytesRead, h, hms]
    have hn : ((msg.length : Int)).toNat = msg.length := rfl
    simp only [setAt, if_pos (by positivity : (0 : Int) ≤ (msg.length : Int)), hn]
    rw [take_set_self, overlay_take _ _ (by omega)]
  · simp [doubleLE]

/-- Claim C7 witness: concrete instance — a 2-byte datagram `[9, 8]`
appended to an empty pool, followed by the 8 bytes of the salt. -/
theorem C7_append_payload_then_salt_witness :
    (⟨some [9, 8], 1, [3, 4]⟩ : ServerEnv).recv = some [9, 8] ∧
    ([9, 8] : List Nat).length ≤ 2 ∧
    (⟨0, [], [0, 0]⟩ : ServerState).buf.length = 2 ∧
    ((anerd_server_iter 2 ⟨0, [], [0, 0]⟩ ⟨some [9, 8], 1, [3, 4]⟩).1.pool
        = ([] : List Nat) ++ [9, 8] ++ doubleLE (saltOf 0 (usecReading 1)) ∧
      (doubleLE (saltOf 0 (usecReading 1))).length = 8) :=
  ⟨rfl, by decide, rfl,
    C7_append_payload_then_salt 2 ⟨0, [], [0, 0]⟩ ⟨some [9, 8], 1, [3, 4]⟩
      [9, 8] rfl (by decide) rfl⟩

/-- Claim C8: with a non-positive interval the Donor loop performs zero
broadcasts (its trace is empty) and terminates at once, for every fuel,
chunk sequence and buffer. -/
theorem C8_nonpositive_interval_noop (size : Nat) (interval : Int)
    (chunks : List (List Nat)) (buf : List Nat) (fuel : Nat)
    (h : interval ≤ 0) :
    anerd_client_loop size interval chunks buf fuel = ([], Outcome.finished) := by
  unfold anerd_client_loop
  rw [if_neg (by omega)]

/-- Claim C8 witness: concrete instance at `interval = 0`. -/
theorem C8_nonpositive_interval_noop_witness :
    (0 : Int) ≤ 0 ∧
    anerd_client_loop 64 0 [[1]] (List.replicate 64 0) 5
      = ([], Outcome.finished) :=
  ⟨by decide, C8_nonpositive_interval_noop 64 0 [[1]] (List.replicate 64 0) 5
    (by decide)⟩

/-- Claim C9: a Donor cycle whose pool `fread` returns 0 bytes (empty
chunk) emits exactly `perror("fread")` followed by the sleep — no
broadcast — and the loop then continues with the next cycle on the
remaining chunks. -/
theorem C9_zero_read_skips_broadcast (size : Nat) (interval : Int)
    (rest : List (List Nat)) (buf : List Nat) (f : Nat)
    (h : 0 < interval) :
    anerd_client_loop size interval ([] :: rest) buf (Nat.succ f)
      = (Event.perror "fread" :: Event.sleepEv interval ::
          (anerd_client_loop size interval rest buf f).1,
         (anerd_client_loop size interval rest buf f).2) := by
  rw [anerd_client_loop]
  rw [if_pos h]
  simp [overlay_nil]

/-- Claim C9 witness: concrete instance with one empty read. -/
theorem C9_zero_read_skips_broadcast_witness :
    (0 : Int) < 3 ∧
    anerd_client_loop 2 3 ([] :: []) [0] (Nat.succ 0)
      = (Event.perror "fread" :: Event.sleepEv 3 ::
          (anerd_client_loop 2 3 [] [0] 0).1,
         (anerd_client_loop 2 3 [] [0] 0).2) :=
  ⟨by decide, C9_zero_read_skips_broadcast 2 3 [] [0] 0 (by decide)⟩

/-- Claim C10: a Donor cycle whose pool read yields at least one byte
logs the donation and broadcasts the whole buffer — exactly `size`
bytes — even when the read returned fewer than `size` bytes. -/
theorem C10_broadcast_exactly_size (size : Nat) (interval : Int)
    (c : List Nat) (rest : List (List Nat)) (buf : List Nat) (f : Nat)
    (h : 0 < interval) (hb : buf.length = size)
    (hc : 0 < (c.take size).length) :
    (anerd_client_loop size interval (c :: rest) buf (Nat.succ f)).1
      = Event.logDonate size :: Event.broadcast (overlay buf (c.take size)) ::
        Event.sleepEv interval ::
        (anerd_client_loop size interval rest (overlay buf (c.take size)) f).1
    ∧ (overlay buf (c.take size)).length = size := by
  have hc2 : 0 < size ∧ 0 < c.length := by
    rw [List.length_take] at hc; omega
  constructor
  · rw [anerd_client_loop, if_pos h]
    simp [hc2.1, hc2.2]
  · rw [overlay_length, hb]

/-- Claim C10 witness: concrete instance where the read returned a
single byte yet the broadcast carries all `size = 4` bytes. -/
theorem C10_broadcast_exactly_size_witness :
    (0 : Int) < 1 ∧ ([0, 0, 0, 0] : List Nat).length = 4 ∧
    0 < (([7] : List Nat).take 4).length ∧
    ((anerd_client_loop 4 1 ([7] :: []) [0, 0, 0, 0] (Nat.succ 0)).1
        = Event.logDonate 4 ::
          Event.broadcast (overlay [0, 0, 0, 0] (([7] : List Nat).take 4)) ::
          Event.sleepEv 1 ::
          (anerd_client_loop 4 1 []
            (overlay [0, 0, 0, 0] (([7] : List Nat).take 4)) 0).1
      ∧ (overlay [0, 0, 0, 0] (([7] : List Nat).take 4)).length = 4) :=
  ⟨by decide, by decide, by decide,
    C10_broadcast_exactly_size 4 1 [7] [] [0, 0, 0, 0] 0 (by decide) (by decide)
      (by decide)⟩
